import Mathlib

/-!
Verification of the incident-resolution backend (Flask variant `app.py`,
FastAPI variant `main.py`) against its natural-language specification.

The Flask variant is modelled in namespace `App`, the FastAPI variant in
namespace `Main`.  Vectors are lists of rationals (the numeric payload sent
to the database); the database's evaluation of the SQL similarity expression
is a parameter `sim : List ℚ → List ℚ → ℚ`, so that theorems quantify over
every possible backend metric, and the real-valued cosine / Euclidean
formulas that pgvector actually computes are modelled separately over `ℝ`.
-/

namespace App

/-- A stored row of the `sentences` table: `(text, embedding, resolved_solution)`.
Rows created by this application always have non-NULL `text` (see
`embed_and_store`), so `text` is a plain `String`. -/
structure Record where
  text : String
  embedding : List ℚ
  resolved_solution : String
deriving DecidableEq

/-- One result dictionary produced by the similarity search:
`{"matched_text": ..., "solution": ..., "similarity": ...}`. -/
structure Match where
  matched_text : String
  solution : String
  similarity : ℚ
deriving DecidableEq

/-- The backend's numeric evaluation of the SQL similarity expression
`1 - (embedding <=> query_vector)` on a stored vector and a query vector. -/
abbrev Sim := List ℚ → List ℚ → ℚ

/-- A row fetched by `cursor.fetchall()`:
`(text, resolved_solution, cosine_similarity)`. -/
abbrev Row := String × String × ℚ

/-- Ranking order of fetched rows: `a` ranks no lower than `b` when its
similarity column is at least `b`'s (`ORDER BY cosine_similarity DESC`). -/
def rowGE (a b : Row) : Prop := b.2.2 ≤ a.2.2

instance : DecidableRel rowGE := fun a b => inferInstanceAs (Decidable (b.2.2 ≤ a.2.2))

instance : IsTotal Row rowGE := ⟨fun a b => le_total b.2.2 a.2.2⟩

instance : IsTrans Row rowGE := ⟨fun _ _ _ h h' => le_trans h' h⟩

/-- The `SELECT text, resolved_solution, 1 - (embedding <=> q) ...` projection:
each stored record scored against the query vector, in insertion order. -/
def scoredRows (sim : Sim) (store : List Record) (qvec : List ℚ) : List Row :=
  store.map (fun r => (r.text, r.resolved_solution, sim r.embedding qvec))

/-- Deterministic model of `ORDER BY cosine_similarity DESC LIMIT k`:
a stable descending sort (ties keep insertion order) truncated to `k` rows.
The SQL itself fixes no tie order; `IsSqlResult` below captures that
nondeterminism, and this definition is one refinement of it. -/
def sqlTopK (sim : Sim) (store : List Record) (qvec : List ℚ) (k : ℕ) : List Row :=
  (List.insertionSort rowGE (scoredRows sim store qvec)).take k

/-- The relational meaning of `ORDER BY cosine_similarity DESC LIMIT k`:
`out` is a possible result iff it is the `k`-prefix of some reordering of the
scored rows that is descending in the similarity column (ties in any order). -/
def IsSqlResult (sim : Sim) (store : List Record) (qvec : List ℚ) (k : ℕ)
    (out : List Row) : Prop :=
  ∃ ranked : List Row, ranked.Perm (scoredRows sim store qvec) ∧
    ranked.Sorted rowGE ∧ out = ranked.take k

/-- The Python result loop shared by all search variants: keep the fetched
rows whose similarity is at least the threshold, in fetched order, and build
a `Match` from each. -/
def buildResults (rows : List Row) (similarity_threshold : ℚ) : List Match :=
  (rows.filter (fun row => similarity_threshold ≤ row.2.2)).map
    (fun row => ⟨row.1, row.2.1, row.2.2⟩)

/-- Success-path model of `find_similar_problems(cursor, new_sentence,
similarity_threshold, top_k)`.  Python's `if not new_sentence: return []`
is true exactly for the empty string.  The second component records the
texts passed to `embed_text` (the Embedder call log).  Failure behaviour is
modelled by `find_similar_problems_E` below. -/
def find_similar_problems (sim : Sim) (embed : String → List ℚ) (store : List Record)
    (new_sentence : String) (similarity_threshold : ℚ) (top_k : ℕ) :
    List Match × List String :=
  if new_sentence = "" then ([], [])
  else
    (buildResults (sqlTopK sim store (embed new_sentence) top_k) similarity_threshold,
      [new_sentence])

/-- Success-path model of `find_similar_problems_v2`.  Its SQL differs from
`find_similar_problems` in the vector serialization (brace string + CAST)
and in the row filter: `WHERE text IS NOT NULL AND text != ''` additionally
drops rows whose text is the empty string. -/
def find_similar_problems_v2 (sim : Sim) (embed : String → List ℚ) (store : List Record)
    (new_sentence : String) (similarity_threshold : ℚ) (top_k : ℕ) :
    List Match × List String :=
  if new_sentence = "" then ([], [])
  else
    (buildResults
      (sqlTopK sim (store.filter (fun r => !(r.text = ""))) (embed new_sentence) top_k)
      similarity_threshold,
      [new_sentence])

/-- Success-path model of `embed_and_store(cursor, description, resolved)`:
skip when `description` is the empty string (`if not description: return`),
otherwise embed and append the new row.  Second component is the Embedder
call log. -/
def embed_and_store (embed : String → List ℚ) (store : List Record)
    (description resolved : String) : List Record × List String :=
  if description = "" then (store, [])
  else (store ++ [⟨description, embed description, resolved⟩], [description])

/-- Model of Python's `not short_description.strip()`: true iff every
character of the string is whitespace (so also for the empty string). -/
def strippedEmpty (s : String) : Bool :=
  s.toList.all (fun c => c.isWhitespace)

/-- One entry of the `results` list built by `upload_file`; `matchList` is
the value of the `"matches"` key (`matches` is a reserved word in Lean). -/
structure UploadEntry where
  description : String
  solution : Option String
  matchList : List Match
deriving DecidableEq

/-- State threaded through the `upload_file` row loop: the table contents,
the `results` list accumulated so far, and the Embedder call log. -/
structure UploadState where
  store : List Record
  results : List UploadEntry
  log : List String
deriving DecidableEq

/-- One iteration of the `for _, row in df.iterrows()` loop of `upload_file`:
skip blank descriptions, otherwise search the current table (with the
default threshold 0.65 and top_k 5), record the result entry, then insert
the new pair. -/
def upload_step (sim : Sim) (embed : String → List ℚ) (st : UploadState)
    (pair : String × String) : UploadState :=
  if strippedEmpty pair.1 then st
  else
    let sr := find_similar_problems sim embed st.store pair.1 (mkRat 13 20) 5
    let best : Option String :=
      match sr.1 with
      | [] => none
      | m :: _ => some m.solution
    let ins := embed_and_store embed st.store pair.1 pair.2
    ⟨ins.1, st.results ++ [⟨pair.1, best, sr.1⟩], st.log ++ sr.2 ++ ins.2⟩

/-- The row loop of the `/upload` route over an ordered sequence of
`(description, resolution)` pairs, starting from table contents `init`. -/
def upload_file (sim : Sim) (embed : String → List ℚ) (init : List Record)
    (pairs : List (String × String)) : UploadState :=
  pairs.foldl (upload_step sim embed) ⟨init, [], []⟩

/-- Failures raised by the Embedder or the database driver. -/
inductive SearchError where
  | modelNotLoaded : SearchError
  | backendFailure : String → SearchError
deriving DecidableEq

/-- Model of `embed_text(text)`: raises `RuntimeError` when the model is not
loaded, otherwise encodes the text. -/
def embed_text (model : Option (String → List ℚ)) (text : String) :
    Except SearchError (List ℚ) :=
  match model with
  | none => .error .modelNotLoaded
  | some m => .ok (m text)

/-- The vector serialization formats the Flask code sends to the driver. -/
inductive VecFormat where
  | bracketString : VecFormat
  | numpyArray : VecFormat
  | braceCast : VecFormat
deriving DecidableEq

/-- Failure-aware model of `find_similar_problems`.  `exec fmt v k` is the
outcome of `cursor.execute(...)`+`fetchall()` for the query carrying vector
`v` serialized in format `fmt` with `LIMIT k`.  `embed_text` is called
outside the `try` block, so its failure propagates; a failed first query
falls back to the numpy-array format, and if that also fails the function
returns `[]` (lines 146-149 of `app.py`). -/
def find_similar_problems_E (model : Option (String → List ℚ))
    (exec : VecFormat → List ℚ → ℕ → Except SearchError (List Row))
    (new_sentence : String) (similarity_threshold : ℚ) (top_k : ℕ) :
    Except SearchError (List Match) :=
  if new_sentence = "" then .ok []
  else
    match embed_text model new_sentence with
    | .error e => .error e
    | .ok v =>
      match exec .bracketString v top_k with
      | .ok rows => .ok (buildResults rows similarity_threshold)
      | .error _ =>
        match exec .numpyArray v top_k with
        | .ok rows => .ok (buildResults rows similarity_threshold)
        | .error _ => .ok []

/-- Failure-aware model of `embed_and_store`: any exception while embedding
or inserting is caught, printed and discarded, leaving the table unchanged
and giving the caller no error signal (the function always returns `None`). -/
def embed_and_store_E (model : Option (String → List ℚ))
    (insert : Record → Except SearchError Unit) (store : List Record)
    (description resolved : String) : List Record :=
  if description = "" then store
  else
    match embed_text model description with
    | .error _ => store
    | .ok v =>
      match insert ⟨description, v, resolved⟩ with
      | .error _ => store
      | .ok _ => store ++ [⟨description, v, resolved⟩]

/-- Dot product of two real vectors, truncating to the shorter length. -/
noncomputable def dotR (a b : List ℝ) : ℝ := (List.zipWith (· * ·) a b).sum

/-- Euclidean norm of a real vector. -/
noncomputable def normR (a : List ℝ) : ℝ := Real.sqrt (dotR a a)

/-- pgvector's `<=>` operator: cosine distance. -/
noncomputable def cosine_distance (a b : List ℝ) : ℝ :=
  1 - dotR a b / (normR a * normR b)

/-- The similarity column computed by the Flask search SQL:
`1 - (embedding <=> query_vector)`. -/
noncomputable def searchSimilarity (a b : List ℝ) : ℝ := 1 - cosine_distance a b

end App

namespace Main

/-- Model of `embed_text` in `main.py`: the embedding call was replaced by a
placeholder that returns 1536 zeros for every input. -/
def embed_text (_text : String) : List ℚ := List.replicate 1536 0

/-- A row of `ticket_embeddings` joined with `tickets`. -/
structure TicketRow where
  ticket_id : ℕ
  issue_summary : String
  resolution_notes : String
  embedding : List ℚ
deriving DecidableEq

/-- Model of the `/search` endpoint body: embed the query, order rows by
ascending `te.embedding <-> :qvec` (`dist` is the backend's evaluation of
the `<->` operator), truncate to `k`, and report `1 - distance` as the
`similarity` column. -/
def search (dist : List ℚ → List ℚ → ℚ) (db : List TicketRow) (query : String)
    (k : ℕ) : List (ℕ × String × String × ℚ) :=
  let qvec := embed_text query
  ((List.insertionSort
      (fun a b => dist a.embedding qvec ≤ dist b.embedding qvec) db).take k).map
    (fun t => (t.ticket_id, t.issue_summary, t.resolution_notes,
      1 - dist t.embedding qvec))

/-- pgvector's `<->` operator: Euclidean (L2) distance. -/
noncomputable def l2_distance (a b : List ℝ) : ℝ :=
  Real.sqrt ((List.zipWith (fun x y => (x - y) ^ 2) a b).sum)

/-- The similarity column computed by the `/search` SQL in `main.py`:
`1 - (te.embedding <-> :qvec)`, i.e. one minus the Euclidean distance. -/
noncomputable def similarity (a b : List ℝ) : ℝ := 1 - l2_distance a b

end Main

section Helpers

/-- Filtering with a stronger predicate yields a sublist of filtering with a
weaker one. -/
theorem filter_sublist_of_imp {α : Type} {p q : α → Bool}
    (h : ∀ a, p a = true → q a = true) :
    ∀ l : List α, List.Sublist (l.filter p) (l.filter q) := by
  intro l
  induction l with
  | nil => simp
  | cons x xs ih =>
    by_cases hp : p x = true
    · rw [List.filter_cons_of_pos hp, List.filter_cons_of_pos (h x hp)]
      exact ih.cons₂ x
    · rw [List.filter_cons_of_neg (by simpa using hp)]
      by_cases hq : q x = true
      · rw [List.filter_cons_of_pos hq]
        exact ih.cons x
      · rw [List.filter_cons_of_neg (by simpa using hq)]
        exact ih

end Helpers

/-- C3 (amended): for the EMPTY query text, both search variants return the
empty result sequence without invoking the Embedder (empty call log, and in
the failure-aware model even an unloaded Embedder causes no error); code
checks `if not new_sentence`, which is true only for the empty string, not
for whitespace-only strings. -/
theorem claim3_empty_query_noop :
    ∀ (sim : App.Sim) (embed : String → List ℚ) (store : List App.Record) (t : ℚ) (k : ℕ)
      (model : Option (String → List ℚ))
      (exec : App.VecFormat → List ℚ → ℕ → Except App.SearchError (List App.Row)),
      App.find_similar_problems sim embed store "" t k = ([], []) ∧
      App.find_similar_problems_v2 sim embed store "" t k = ([], []) ∧
      App.find_similar_problems_E model exec "" t k = .ok [] := by
  intro sim embed store t k model exec
  exact ⟨rfl, rfl, rfl⟩

/-- C3 counterexample: a whitespace-only (but nonempty) query is NOT
rejected: the Embedder is invoked on it (call log `[" "]`; with no model
loaded the failure-aware variant raises), and the result need not be empty. -/
theorem claim3_counterexample_whitespace_query :
    (App.find_similar_problems (fun _ _ => 1) (fun _ => [1]) [⟨"a", [1], "ra"⟩]
        " " (mkRat 13 20) 5).2 = [" "] ∧
    (App.find_similar_problems (fun _ _ => 1) (fun _ => [1]) [⟨"a", [1], "ra"⟩]
        " " (mkRat 13 20) 5).1 ≠ [] ∧
    App.find_similar_problems_E none (fun _ _ _ => .ok []) " " (mkRat 13 20) 5 =
      .error .modelNotLoaded := by
  refine ⟨by decide, by decide, rfl⟩

/-- C7: for every query text, threshold and k, the search returns at most k
matches, and k = 0 returns the empty sequence. -/
theorem claim7_k_bounded (sim : App.Sim) (embed : String → List ℚ)
    (store : List App.Record) (q : String) (t : ℚ) :
    (∀ k, ((App.find_similar_problems sim embed store q t k).1).length ≤ k) ∧
    (App.find_similar_problems sim embed store q t 0).1 = [] := by
  constructor
  · intro k
    by_cases hq : q = ""
    · simp [App.find_similar_problems, hq]
    · rw [App.find_similar_problems, if_neg hq]
      calc (App.buildResults (App.sqlTopK sim store (embed q) k) t).length
          ≤ (App.sqlTopK sim store (embed q) k).length := by
            rw [App.buildResults, List.length_map]
            exact List.length_filter_le _ _
        _ ≤ k := List.length_take_le k _
  · by_cases hq : q = ""
    · simp [App.find_similar_problems, hq]
    · rw [App.find_similar_problems, if_neg hq]
      rfl

/-- C8: a pair whose description is empty or whitespace-only is skipped
entirely by the upload loop: the state (table, results, Embedder call log)
is unchanged, and `embed_and_store` on an empty description inserts nothing
and calls the Embedder on nothing. -/
theorem claim8_blank_description_skipped (sim : App.Sim) (embed : String → List ℚ)
    (st : App.UploadState) (pair : String × String)
    (h : App.strippedEmpty pair.1 = true) :
    App.upload_step sim embed st pair = st ∧
    App.embed_and_store embed st.store "" pair.2 = (st.store, []) := by
  constructor
  · rw [App.upload_step, if_pos h]
  · rfl

/-- C8 witness at the spec's test input `ingest("", "some fix")`. -/
theorem claim8_witness :
    App.strippedEmpty "" = true ∧
    (App.upload_step (fun _ _ => 1) (fun _ => [1]) ⟨[], [], []⟩ ("", "some fix") =
        ⟨[], [], []⟩ ∧
      App.embed_and_store (fun _ => [1]) ([] : List App.Record) "" "some fix" = ([], [])) :=
  ⟨by decide,
    claim8_blank_description_skipped (fun _ _ => 1) (fun _ => [1]) ⟨[], [], []⟩
      ("", "some fix") (by decide)⟩

/-- C10: in the FastAPI variant, `embed_text` returns the same vector of
1536 zeros for every input, so the `/search` result is independent of the
query text: any two query strings yield identical match lists on the same
database state, for every backend distance function. -/
theorem claim10_query_independent :
    (∀ s : String, Main.embed_text s = List.replicate 1536 0) ∧
    ∀ (dist : List ℚ → List ℚ → ℚ) (db : List Main.TicketRow) (k : ℕ) (q1 q2 : String),
      Main.search dist db q1 k = Main.search dist db q2 k :=
  ⟨fun _ => rfl, fun _ _ _ _ _ => rfl⟩

/-- C1 counterexample: with a reachable Embedder but a failing Record Store,
`find_similar_problems` returns the successful empty list `[]` instead of
propagating the failure (lines 116-149 of `app.py` catch it, try a fallback,
and return `[]`), so the caller cannot distinguish a failed search from one
with no matches; and with the model not loaded, `embed_and_store` silently
leaves the store unchanged instead of signalling the error (lines 81-83). -/
theorem claim1_counterexample_swallowed_failures :
    App.find_similar_problems_E (some (fun _ => [1]))
        (fun _ _ _ => .error (.backendFailure "connection lost"))
        "disk full" (mkRat 13 20) 5 = .ok [] ∧
    App.embed_and_store_E none (fun _ => .ok ()) [] "disk full" "fix" = [] :=
  ⟨rfl, rfl⟩

/-- C1 (amended): only Embedder failures during a search propagate unmodified
(`embed_text` is called outside the `try` block); Record Store failures
during a search are swallowed into the empty result list once the fallback
query also fails, and every failure inside `embed_and_store` (embedding or
insert) is swallowed into a silently skipped insert that leaves the store
unchanged and returns no error. -/
theorem claim1_partial_propagation (model : Option (String → List ℚ))
    (exec : App.VecFormat → List ℚ → ℕ → Except App.SearchError (List App.Row))
    (q : String) (t : ℚ) (k : ℕ) (hq : q ≠ "") :
    (∀ e, App.embed_text model q = .error e →
      App.find_similar_problems_E model exec q t k = .error e) ∧
    (∀ v e1 e2, App.embed_text model q = .ok v →
      exec .bracketString v k = .error e1 → exec .numpyArray v k = .error e2 →
      App.find_similar_problems_E model exec q t k = .ok []) ∧
    (∀ (insert : App.Record → Except App.SearchError Unit) store d r e,
      App.embed_text model d = .error e →
      App.embed_and_store_E model insert store d r = store) ∧
    (∀ (insert : App.Record → Except App.SearchError Unit) store d r v e,
      d ≠ "" → App.embed_text model d = .ok v → insert ⟨d, v, r⟩ = .error e →
      App.embed_and_store_E model insert store d r = store) := by
  refine ⟨?_, ?_, ?_, ?_⟩
  · intro e he
    rw [App.find_similar_problems_E, if_neg hq, he]
  · intro v e1 e2 hv h1 h2
    simp only [App.find_similar_problems_E, if_neg hq, hv, h1, h2]
  · intro insert store d r e he
    by_cases hd : d = ""
    · rw [App.embed_and_store_E, if_pos hd]
    · rw [App.embed_and_store_E, if_neg hd, he]
  · intro insert store d r v e hd hv hins
    simp only [App.embed_and_store_E, if_neg hd, hv, hins]

/-- C1 witness: an unloaded Embedder model does propagate out of the search. -/
theorem claim1_witness :
    ("q" ≠ "") ∧
    App.find_similar_problems_E none
      (fun _ _ _ => .ok ([] : List App.Row)) "q" 1 5 = .error .modelNotLoaded :=
  ⟨by decide,
    (claim1_partial_propagation none (fun _ _ _ => .ok ([] : List App.Row)) "q" 1 5
      (by decide)).1 .modelNotLoaded rfl⟩

/-- C9 counterexample: on a store holding a record with empty text, the two
search paths disagree: v1's `WHERE text IS NOT NULL` keeps the row while
v2's `WHERE text IS NOT NULL AND text != ''` drops it, so the paths differ
in more than the vector-serialization format. -/
theorem claim9_counterexample_empty_text_row :
    App.find_similar_problems (fun _ _ => 1) (fun _ => [1]) [⟨"", [1], "fix"⟩]
        "x" (mkRat 13 20) 5 ≠
      App.find_similar_problems_v2 (fun _ _ => 1) (fun _ => [1]) [⟨"", [1], "fix"⟩]
        "x" (mkRat 13 20) 5 := by
  decide

/-- C9 (amended): besides the vector-serialization format, the two paths
differ in the SQL row filter (v2 drops empty-text rows); on every store
containing no empty-text record, they return the same result (and the same
Embedder call log) for every query, threshold and k. -/
theorem claim9_equal_without_empty_texts (sim : App.Sim) (embed : String → List ℚ)
    (store : List App.Record) (q : String) (t : ℚ) (k : ℕ)
    (h : ∀ r ∈ store, r.text ≠ "") :
    App.find_similar_problems sim embed store q t k =
      App.find_similar_problems_v2 sim embed store q t k := by
  have hf : store.filter (fun r => !(r.text = "")) = store :=
    List.filter_eq_self.2 (fun r hr => by simpa using h r hr)
  rw [App.find_similar_problems, App.find_similar_problems_v2, hf]

/-- C9 witness at a store with one nonempty-text record. -/
theorem claim9_witness :
    (∀ r ∈ [(⟨"a", [1], "ra"⟩ : App.Record)], r.text ≠ "") ∧
    App.find_similar_problems (fun _ _ => 1) (fun _ => [1]) [⟨"a", [1], "ra"⟩]
        "x" (mkRat 13 20) 5 =
      App.find_similar_problems_v2 (fun _ _ => 1) (fun _ => [1]) [⟨"a", [1], "ra"⟩]
        "x" (mkRat 13 20) 5 :=
  ⟨by decide,
    claim9_equal_without_empty_texts (fun _ _ => 1) (fun _ => [1]) [⟨"a", [1], "ra"⟩]
      "x" (mkRat 13 20) 5 (by decide)⟩

/-- C5 counterexample: the SQL `ORDER BY cosine_similarity DESC LIMIT k`
fixes no order among rows with equal similarity, so on a store with two
equally similar records both orders are valid query results: the returned
order is not determined, and the later-inserted record may come first. -/
theorem claim5_counterexample_tie_order :
    App.IsSqlResult (fun _ _ => 1) [⟨"a", [1], "ra"⟩, ⟨"b", [1], "rb"⟩] [1] 2
        [("b", "rb", 1), ("a", "ra", 1)] ∧
    App.IsSqlResult (fun _ _ => 1) [⟨"a", [1], "ra"⟩, ⟨"b", [1], "rb"⟩] [1] 2
        [("a", "ra", 1), ("b", "rb", 1)] ∧
    [("b", "rb", (1 : ℚ)), ("a", "ra", 1)] ≠ [("a", "ra", (1 : ℚ)), ("b", "rb", 1)] := by
  refine ⟨⟨[("b", "rb", 1), ("a", "ra", 1)], by decide, by decide, rfl⟩,
    ⟨[("a", "ra", 1), ("b", "rb", 1)], by decide, by decide, rfl⟩, by decide⟩

/-- C5 (amended): every possible result of the ranked query has at most k
rows and is ordered by descending similarity score; the tie order among
equal scores is left unspecified by the query, so it need not follow
insertion order. -/
theorem claim5_topk_sorted (sim : App.Sim) (store : List App.Record)
    (qvec : List ℚ) (k : ℕ) (out : List App.Row)
    (h : App.IsSqlResult sim store qvec k out) :
    out.length ≤ k ∧ out.Sorted App.rowGE := by
  obtain ⟨ranked, _, hsort, rfl⟩ := h
  exact ⟨List.length_take_le k ranked, hsort.sublist (List.take_sublist k ranked)⟩

/-- C5 witness on a one-record store. -/
theorem claim5_witness :
    App.IsSqlResult (fun _ _ => 1) [⟨"a", [1], "ra"⟩] [1] 1 [("a", "ra", 1)] ∧
    ([(("a", "ra", 1) : App.Row)].length ≤ 1 ∧
      List.Sorted App.rowGE [(("a", "ra", 1) : App.Row)]) :=
  ⟨⟨[("a", "ra", 1)], by decide, by decide, rfl⟩,
    claim5_topk_sorted (fun _ _ => 1) [⟨"a", [1], "ra"⟩] [1] 1 [("a", "ra", 1)]
      ⟨[("a", "ra", 1)], by decide, by decide, rfl⟩⟩

/-- C6: threshold monotonicity. For the same query, corpus (and backend
metric) and k, the result at a higher threshold t2 > t1 is a subsequence of
the result at t1; in particular raising the threshold never increases the
number of returned matches. -/
theorem claim6_threshold_monotone (sim : App.Sim) (embed : String → List ℚ)
    (store : List App.Record) (q : String) (k : ℕ) {t1 t2 : ℚ} (h : t1 < t2) :
    List.Sublist ((App.find_similar_problems sim embed store q t2 k).1)
        ((App.find_similar_problems sim embed store q t1 k).1) ∧
    ((App.find_similar_problems sim embed store q t2 k).1).length ≤
      ((App.find_similar_problems sim embed store q t1 k).1).length := by
  have hsub : List.Sublist ((App.find_similar_problems sim embed store q t2 k).1)
      ((App.find_similar_problems sim embed store q t1 k).1) := by
    by_cases hq : q = ""
    · simp [App.find_similar_problems, hq]
    · have himp : ∀ row : App.Row,
          (decide (t2 ≤ row.2.2)) = true → (decide (t1 ≤ row.2.2)) = true :=
        fun row hrow => decide_eq_true (le_trans h.le (of_decide_eq_true hrow))
      simp only [App.find_similar_problems, if_neg hq, App.buildResults]
      exact (filter_sublist_of_imp himp _).map _
  exact ⟨hsub, hsub.length_le⟩

/-- C6 witness at thresholds 0 < 1 on a one-record store. -/
theorem claim6_witness :
    ((0 : ℚ) < 1) ∧
    (List.Sublist
        ((App.find_similar_problems (fun _ _ => 1) (fun _ => [1]) [⟨"a", [1], "ra"⟩]
          "a" 1 5).1)
        ((App.find_similar_problems (fun _ _ => 1) (fun _ => [1]) [⟨"a", [1], "ra"⟩]
          "a" 0 5).1) ∧
      ((App.find_similar_problems (fun _ _ => 1) (fun _ => [1]) [⟨"a", [1], "ra"⟩]
          "a" 1 5).1).length ≤
        ((App.find_similar_problems (fun _ _ => 1) (fun _ => [1]) [⟨"a", [1], "ra"⟩]
          "a" 0 5).1).length) :=
  ⟨by decide,
    claim6_threshold_monotone (fun _ _ => 1) (fun _ => [1]) [⟨"a", [1], "ra"⟩]
      "a" 5 (by decide)⟩

/-- C2: the upload loop processes pairs strictly in input order, searching
before inserting within each pair and completing the insert before the next
pair's search; hence ingesting the same (description, resolution) pair twice
into an empty store yields no matches for the first pair and, for the second,
a match list whose first (and only) element is the first pair's description.
Stated for every Embedder and every backend metric under which the pair's
vector is at least 0.65-similar to itself; the final state shows both inserts
and the four Embedder calls in chronological order. -/
theorem claim2_batch_duplicate (sim : App.Sim) (embed : String → List ℚ)
    (resolution : String)
    (h : mkRat 13 20 ≤ sim (embed "server down") (embed "server down")) :
    App.upload_file sim embed []
        [("server down", resolution), ("server down", resolution)] =
      ⟨[⟨"server down", embed "server down", resolution⟩,
        ⟨"server down", embed "server down", resolution⟩],
       [⟨"server down", none, []⟩,
        ⟨"server down", some resolution,
          [⟨"server down", resolution,
            sim (embed "server down") (embed "server down")⟩]⟩],
       ["server down", "server down", "server down", "server down"]⟩ := by
  have hs : App.strippedEmpty "server down" = false := by decide
  have hne : "server down" ≠ "" := by decide
  simp [App.upload_file, App.upload_step, App.find_similar_problems, App.embed_and_store,
    App.sqlTopK, App.scoredRows, App.buildResults, hs, hne, decide_eq_true h]

/-- C2 witness with a concrete unit-vector Embedder and dot-product metric. -/
theorem claim2_witness :
    (mkRat 13 20 ≤ (1 : ℚ)) ∧
    App.upload_file (fun _ _ => 1) (fun _ => [1]) []
        [("server down", "rebooted"), ("server down", "rebooted")] =
      ⟨[⟨"server down", [1], "rebooted"⟩, ⟨"server down", [1], "rebooted"⟩],
       [⟨"server down", none, []⟩,
        ⟨"server down", some "rebooted", [⟨"server down", "rebooted", 1⟩]⟩],
       ["server down", "server down", "server down", "server down"]⟩ :=
  ⟨by decide, claim2_batch_duplicate (fun _ _ => 1) (fun _ => [1]) "rebooted" (by decide)⟩

section CosineBounds

/-- Dot product of consed vectors. -/
theorem dotR_cons_cons (x y : ℝ) (xs ys : List ℝ) :
    App.dotR (x :: xs) (y :: ys) = x * y + App.dotR xs ys := by
  simp [App.dotR]

/-- A vector's dot product with itself is nonnegative. -/
theorem dotR_self_nonneg (a : List ℝ) : 0 ≤ App.dotR a a := by
  induction a with
  | nil => simp [App.dotR]
  | cons x xs ih =>
    rw [dotR_cons_cons]
    nlinarith [mul_self_nonneg x]

/-- Inductive step of the Cauchy-Schwarz inequality. -/
theorem cs_step (x y S A B : ℝ) (hA : 0 ≤ A) (hB : 0 ≤ B) (h : S ^ 2 ≤ A * B) :
    (x * y + S) ^ 2 ≤ (x ^ 2 + A) * (y ^ 2 + B) := by
  rcases eq_or_lt_of_le hB with hB0 | hB0
  · have hS2 : S ^ 2 = 0 := le_antisymm (by nlinarith) (sq_nonneg S)
    have hS : S = 0 := sq_eq_zero_iff.1 hS2
    subst hS
    nlinarith [mul_nonneg hA (sq_nonneg y), sq_nonneg x, sq_nonneg y]
  · have h' : 0 ≤ A * B - S ^ 2 := by linarith
    nlinarith [sq_nonneg (B * x - S * y), mul_nonneg (sq_nonneg y) h',
      mul_nonneg hB0.le h']

/-- Cauchy-Schwarz inequality for list dot products. -/
theorem dotR_sq_le (a : List ℝ) :
    ∀ b, (App.dotR a b) ^ 2 ≤ App.dotR a a * App.dotR b b := by
  induction a with
  | nil => intro b; simp [App.dotR]
  | cons x xs ih =>
    intro b
    cases b with
    | nil => simp [App.dotR]
    | cons y ys =>
      rw [dotR_cons_cons, dotR_cons_cons, dotR_cons_cons]
      nlinarith [cs_step x y (App.dotR xs ys) (App.dotR xs xs) (App.dotR ys ys)
        (dotR_self_nonneg xs) (dotR_self_nonneg ys) (ih ys)]

/-- Norms are nonnegative. -/
theorem normR_nonneg (a : List ℝ) : 0 ≤ App.normR a := Real.sqrt_nonneg _

/-- The dot product is bounded by the product of the norms. -/
theorem abs_dotR_le (a b : List ℝ) : |App.dotR a b| ≤ App.normR a * App.normR b := by
  rw [App.normR, App.normR, ← Real.sqrt_mul (dotR_self_nonneg a), ← Real.sqrt_sq_eq_abs]
  exact Real.sqrt_le_sqrt (dotR_sq_le a b)

end CosineBounds

/-- C4 (amended): in the Flask search paths the score attached to a match is
the SQL expression `1 - (embedding <=> query)`, i.e. one minus pgvector's
cosine distance, which equals the cosine of the two vectors and lies in
[-1, 1] whenever both vectors have nonzero norm.  The FastAPI `/search`
path does NOT use this metric (see the counterexample). -/
theorem claim4_cosine_range (a b : List ℝ) (ha : App.normR a ≠ 0)
    (hb : App.normR b ≠ 0) :
    App.searchSimilarity a b = 1 - App.cosine_distance a b ∧
    App.searchSimilarity a b = App.dotR a b / (App.normR a * App.normR b) ∧
    -1 ≤ App.searchSimilarity a b ∧ App.searchSimilarity a b ≤ 1 := by
  have hna : 0 < App.normR a := (normR_nonneg a).lt_of_ne (Ne.symm ha)
  have hnb : 0 < App.normR b := (normR_nonneg b).lt_of_ne (Ne.symm hb)
  have hpos : 0 < App.normR a * App.normR b := mul_pos hna hnb
  have hsim : App.searchSimilarity a b = App.dotR a b / (App.normR a * App.normR b) := by
    rw [App.searchSimilarity, App.cosine_distance]; ring
  have habs := abs_dotR_le a b
  refine ⟨rfl, hsim, ?_, ?_⟩
  · rw [hsim, le_div_iff₀ hpos]
    have := (abs_le.1 habs).1
    linarith
  · rw [hsim, div_le_one hpos]
    exact (abs_le.1 habs).2

/-- C4 witness on the unit vector `[1]`: similarity 1 with itself, in range. -/
theorem claim4_witness :
    App.normR [(1 : ℝ)] ≠ 0 ∧
    (-1 ≤ App.searchSimilarity [(1 : ℝ)] [(1 : ℝ)] ∧
      App.searchSimilarity [(1 : ℝ)] [(1 : ℝ)] ≤ 1) := by
  have h1 : App.normR [(1 : ℝ)] = 1 := by
    rw [App.normR, show App.dotR [(1 : ℝ)] [(1 : ℝ)] = 1 by norm_num [App.dotR],
      Real.sqrt_one]
  have hne : App.normR [(1 : ℝ)] ≠ 0 := by rw [h1]; norm_num
  exact ⟨hne, (claim4_cosine_range [(1 : ℝ)] [(1 : ℝ)] hne hne).2.2⟩

/-- C4 counterexample: the FastAPI `/search` path scores matches with
`1 - (embedding <-> qvec)`, one minus the Euclidean distance, not cosine
similarity: for stored vector (3,4) and query vector (0,0) the score is
-4, outside [-1, 1]. -/
theorem claim4_counterexample_main_metric :
    Main.similarity [(3 : ℝ), 4] [0, 0] = -4 ∧
    Main.similarity [(3 : ℝ), 4] [0, 0] < -1 := by
  have h : Main.l2_distance [(3 : ℝ), 4] [0, 0] = 5 := by
    rw [Main.l2_distance,
      show ((List.zipWith (fun x y => (x - y) ^ 2) [(3 : ℝ), 4] [0, 0]).sum) = 25
        by norm_num,
      show (25 : ℝ) = 5 ^ 2 by norm_num, Real.sqrt_sq (by norm_num : (0 : ℝ) ≤ 5)]
  constructor
  · rw [Main.similarity, h]; norm_num
  · rw [Main.similarity, h]; norm_num
